import Mathlib

/-!
Shallow embedding of the pidebackend catalog backend (Django) and proofs
about its soft-delete lifecycle, slug generation, listing filters and
computed fields.  Each definition is translated from a named place in the
Python source; the theorems at the end of the file settle the specification
claims against these definitions.
-/

namespace PideBackend

/-! ## Python truthiness helpers

Several branches in the source test Python truthiness.  `None` and
`Decimal("0")` are falsy; the empty string is falsy. -/

/-- Truthiness of an optional Decimal value: `None` and zero are falsy. -/
def decimalTruthy : Option ℚ → Bool
  | none => false
  | some q => q != 0

/-- Truthiness of a string: only the empty string is falsy. -/
def strTruthy (s : String) : Bool := s != ""

/-! ## Slug generation

`Attribute.save` (atributos/models.py lines 150-168) derives a slug from the
name and probes for uniqueness:

    base_slug = slugify(self.name)
    slug = base_slug
    counter = 1
    while Attribute.objects.filter(slug=slug).exclude(pk=self.pk).exists():
        slug = f"\x7bbase_slug\x7d-\x7bcounter\x7d"
        counter += 1
    self.slug = slug

The identical loop appears in `Brand.save` (brands/models.py lines 127-145),
`Category.save` (category/models.py lines 143-161) and `Producto.save`
(productos/models.py lines 387-405).  `slugify` is the Django library
function; the embedding takes its output (the base slug) as input.  Crucially
the probe runs through `objects`, the soft-delete manager whose
`get_queryset` filters `deleted_at__isnull=True` (atributos/models.py lines
7-15), so the taken set below is the set of slugs of ACTIVE records other
than the record being saved. -/

/-- The candidate built by the loop body, `f"\x7bbase_slug\x7d-\x7bcounter\x7d"`. -/
def slugCandidate (base : String) (counter : Nat) : String :=
  base ++ "-" ++ toString counter

/-- One step of the `while` loop per unit of fuel: if the current candidate
collides with a taken slug, move to the next candidate. -/
def slugProbeAux (base : String) (taken : List String) :
    Nat → String → Nat → String
  | 0, slug, _ => slug
  | fuel + 1, slug, counter =>
      if slug ∈ taken then
        slugProbeAux base taken fuel (slugCandidate base counter) (counter + 1)
      else slug

/-- The uniqueness probe of the `save` overrides: start from the base slug
with `counter = 1` and advance while the candidate is taken.  The source
loop has no explicit bound; `taken.length + 1` units of fuel are enough for
it to reach a free candidate on every input that occurs in the theorems
below (each is discharged by explicit unfolding, never by fuel
exhaustion). -/
def generateSlug (base : String) (taken : List String) : String :=
  slugProbeAux base taken (taken.length + 1) base 1

/-- A persisted row as the slug probe sees it: primary key, slug column and
soft-delete timestamp. -/
structure SlugRow where
  pk : Nat
  slug : String
  deleted_at : Option Nat
deriving DecidableEq

/-- `Attribute.objects.filter(slug=...).exclude(pk=self.pk)` ranges over this
set: slugs of rows with `deleted_at IS NULL`, excluding the row being
saved. -/
def activeSlugsExcluding (store : List SlugRow) (pk : Nat) : List String :=
  (store.filter (fun r => r.deleted_at == none && r.pk != pk)).map (·.slug)

/-- Slugs of every row, active or soft-deleted.  The `slug` column is
declared `unique=True` (atributos/models.py line 63), a constraint over ALL
rows. -/
def allSlugs (store : List SlugRow) : List String :=
  store.map (·.slug)

/-- The store at the failing input for claim C1: a single soft-deleted
attribute (pk 1, `deleted_at` set) holds slug "color".  A new record
(pk 2) named "Color" is about to be saved; `slugify` gives base slug
"color". -/
def c1Store : List SlugRow := [⟨1, "color", some 100⟩]

/-! ## Producto (productos/models.py lines 34-541)

Decimal columns are embedded as `Option ℚ` (nullable), timestamps as `Nat`,
foreign keys as the referenced primary key. -/

structure Producto where
  pk : Nat
  nombre : String
  slug : String
  sku_base : Option String
  descripcion_corta : String
  descripcion_larga : String
  categoria_id : Nat
  marca_id : Option Nat
  tiene_variantes : Bool
  tipo_producto : String
  precio_base : Option ℚ
  precio_costo : Option ℚ
  precio_descuento : Option ℚ
  porcentaje_descuento : Option ℚ
  moneda : String
  stock_actual : Int
  stock_minimo : Int
  unidad_medida : String
  peso : Option ℚ
  largo : Option ℚ
  ancho : Option ℚ
  alto : Option ℚ
  meta_title : Option String
  meta_description : Option String
  keywords : Option String
  activo : Bool
  publicado : Bool
  destacado : Bool
  es_nuevo : Bool
  fecha_publicacion : Option Nat
  fecha_nuevo_hasta : Option Nat
  vistas : Int
  ventas_totales : Int
  rating_promedio : ℚ
  total_reviews : Int
  created_at : Nat
  updated_at : Nat
  deleted_at : Option Nat
  created_by : Option Nat
  updated_by : Option Nat
deriving DecidableEq

/-- `Producto.save` (productos/models.py lines 387-405):

    if not self.slug or self.nombre:
        ... uniqueness probe on slugify(self.nombre) ...
        self.slug = slug
    super().save(*args, **kwargs)

`base` stands for `slugify(self.nombre)` (Django library call), `others` for
the slugs visible to the probe (active records excluding this pk), `now` for
the `auto_now` value written into `updated_at`. -/
def Producto.save (p : Producto) (base : String) (others : List String)
    (now : Nat) : Producto :=
  let p' :=
    if !strTruthy p.slug || strTruthy p.nombre then
      { p with slug := generateSlug base others }
    else p
  { p' with updated_at := now }

/-- `Producto.delete` (productos/models.py lines 407-415): soft delete.
Sets `deleted_at = timezone.now()`, forces `activo = False` and
`publicado = False`, then runs the overridden `save`. -/
def Producto.delete (p : Producto) (base : String) (others : List String)
    (now : Nat) : Producto :=
  Producto.save
    { p with deleted_at := some now, activo := false, publicado := false }
    base others now

/-- `Producto.restore` (productos/models.py lines 424-430): clears
`deleted_at`, forces `activo = True` (and touches nothing else), then runs
the overridden `save`.  Note it does NOT touch `publicado`. -/
def Producto.restore (p : Producto) (base : String) (others : List String)
    (now : Nat) : Producto :=
  Producto.save { p with deleted_at := none, activo := true } base others now

/-- `Producto.is_deleted` (productos/models.py lines 432-437). -/
def Producto.is_deleted (p : Producto) : Bool := p.deleted_at != none

/-- `Producto.tiene_stock` (productos/models.py lines 439-444). -/
def Producto.tiene_stock (p : Producto) : Bool := p.stock_actual > 0

/-- `Producto.stock_bajo` (productos/models.py lines 446-451). -/
def Producto.stock_bajo (p : Producto) : Bool :=
  p.stock_actual ≤ p.stock_minimo

/-- `Producto.precio_final` (productos/models.py lines 453-460):

    if self.precio_descuento:
        return self.precio_descuento
    return self.precio_base

The guard is Python truthiness, so `Decimal("0")` falls through to
`precio_base`. -/
def Producto.precio_final (p : Producto) : Option ℚ :=
  if decimalTruthy p.precio_descuento then p.precio_descuento
  else p.precio_base

/-- `Producto.tiene_descuento` (productos/models.py lines 462-467):
`self.precio_descuento is not None and self.precio_descuento < self.precio_base`.
Comparing a Decimal with `None` in Python raises; the embedding mirrors the
well-typed case where `precio_base` is set, and returns `false` when the
comparison has no left operand. -/
def Producto.tiene_descuento (p : Producto) : Bool :=
  match p.precio_descuento, p.precio_base with
  | some d, some b => d < b
  | _, _ => false

/-- `Producto.actualizar_stock` (productos/models.py lines 533-541):

    self.stock_actual += cantidad
    if self.stock_actual < 0:
        self.stock_actual = 0
    self.save(update_fields=['stock_actual'])

The `update_fields` restriction persists only the stock column, so the
embedding updates only that field. -/
def Producto.actualizar_stock (p : Producto) (cantidad : Int) : Producto :=
  let nuevo := p.stock_actual + cantidad
  { p with stock_actual := if nuevo < 0 then 0 else nuevo }

/-- A concrete product used by counterexamples and witnesses: an active,
published product with one unit of stock. -/
def sampleProducto : Producto where
  pk := 1
  nombre := "Camiseta"
  slug := "camiseta"
  sku_base := some "CAM-001"
  descripcion_corta := "Camiseta de algodon"
  descripcion_larga := ""
  categoria_id := 1
  marca_id := some 1
  tiene_variantes := false
  tipo_producto := "simple"
  precio_base := some 100
  precio_costo := some 60
  precio_descuento := some 80
  porcentaje_descuento := none
  moneda := "COP"
  stock_actual := 1
  stock_minimo := 0
  unidad_medida := "unidad"
  peso := none
  largo := some 10
  ancho := some 5
  alto := some 2
  meta_title := none
  meta_description := none
  keywords := none
  activo := true
  publicado := true
  destacado := false
  es_nuevo := false
  fecha_publicacion := none
  fecha_nuevo_hasta := none
  vistas := 0
  ventas_totales := 0
  rating_promedio := 0
  total_reviews := 0
  created_at := 1
  updated_at := 1
  deleted_at := none
  created_by := some 1
  updated_by := none

/-! ## Brand (brands/models.py lines 31-184) and its API surface -/

structure Brand where
  pk : Nat
  name : String
  slug : String
  description : Option String
  logo : Option String
  website : Option String
  is_active : Bool
  is_featured : Bool
  created_at : Nat
  updated_at : Nat
  deleted_at : Option Nat
deriving DecidableEq

/-- `Brand.save` (brands/models.py lines 127-145); same shape as
`Producto.save`, probing `Brand.objects` (active rows only).  `slugify` is
the Django library call applied to `self.name`. -/
def Brand.save (b : Brand) (slugify : String → String)
    (others : List String) (now : Nat) : Brand :=
  let b' :=
    if !strTruthy b.slug || strTruthy b.name then
      { b with slug := generateSlug (slugify b.name) others }
    else b
  { b' with updated_at := now }

/-- `Brand.delete` (brands/models.py lines 154-161): sets `deleted_at`,
forces `is_active = False`, saves. -/
def Brand.delete (b : Brand) (slugify : String → String)
    (others : List String) (now : Nat) : Brand :=
  Brand.save { b with deleted_at := some now, is_active := false }
    slugify others now

/-- `Brand.restore` (brands/models.py lines 170-176): clears `deleted_at`,
forces `is_active = True`, saves. -/
def Brand.restore (b : Brand) (slugify : String → String)
    (others : List String) (now : Nat) : Brand :=
  Brand.save { b with deleted_at := none, is_active := true }
    slugify others now

/-- Slugs the probe sees when saving a brand into `store`: active rows other
than `pk`. -/
def brandActiveSlugsExcluding (store : List Brand) (pk : Nat) : List String :=
  (store.filter (fun r => r.deleted_at == none && r.pk != pk)).map (·.slug)

/-- The validated data of `BrandCreateUpdateSerializer`
(brands/api/serializers.py lines 63-89): exactly the writable fields
name, slug, description, logo, website, is_active, is_featured — `deleted_at`
and the audit columns are not in `fields` and can never be written.  A
`none` entry means the key was absent from the payload. -/
structure BrandPayload where
  name : Option String
  slug : Option String
  description : Option (Option String)
  logo : Option (Option String)
  website : Option (Option String)
  is_active : Option Bool
  is_featured : Option Bool

/-- `serializer.save()` on an existing instance: set each field present in
the validated data, leave the rest. -/
def BrandPayload.applyTo (pl : BrandPayload) (b : Brand) : Brand :=
  { b with
    name := pl.name.getD b.name
    slug := pl.slug.getD b.slug
    description := pl.description.getD b.description
    logo := pl.logo.getD b.logo
    website := pl.website.getD b.website
    is_active := pl.is_active.getD b.is_active
    is_featured := pl.is_featured.getD b.is_featured }

/-- `serializer.save()` with no instance (creation): a fresh row built from
the model defaults (`is_active=True`, `is_featured=False`,
`deleted_at=NULL`, brands/models.py lines 78-106), overlaid with the
payload, then persisted through `Brand.save`. -/
def BrandPayload.createBrand (pl : BrandPayload) (pk : Nat)
    (slugify : String → String) (others : List String) (now : Nat) : Brand :=
  Brand.save
    (pl.applyTo
      { pk := pk, name := "", slug := "", description := none, logo := none
        website := none, is_active := true, is_featured := false
        created_at := now, updated_at := now, deleted_at := none })
    slugify others now

/-- Result of a view function, by status class: `ok` (2xx), `badRequest`
(400 with its error message) or `serverError` (500 with its error
message).  These views wrap their whole body in `try/except Exception`, so
even the `Http404` a failed `get_object_or_404` raises is caught by the
blanket handler and surfaced as a 500-class response, never as a 404. -/
inductive ApiResult (α : Type) where
  | ok (body : α)
  | badRequest (error : String)
  | serverError (error : String)
deriving DecidableEq

/-- Writing one row back to the table (what `self.save()` persists). -/
def brandStoreWrite (store : List Brand) (b : Brand) : List Brand :=
  store.map (fun r => if r.pk == b.pk then b else r)

/-- `get_object_or_404(Brand, pk=pk)` resolves through the default manager
`objects = BrandManager()` (brands/models.py line 109) whose queryset keeps
only `deleted_at__isnull=True` rows, so soft-deleted rows are invisible. -/
def getBrandOr404 (store : List Brand) (pk : Nat) : Option Brand :=
  (store.filter (fun b => b.deleted_at == none)).find? (fun b => b.pk == pk)

/-- `get_object_or_404(Brand.all_objects, pk=pk)` (restore endpoint),
searching every row. -/
def getBrandAllOr404 (store : List Brand) (pk : Nat) : Option Brand :=
  store.find? (fun b => b.pk == pk)

/-- `create_brand` (brands/api/views.py lines 121-153), after a valid
payload: save a fresh instance, return 201. -/
def create_brand (store : List Brand) (pl : BrandPayload) (npk : Nat)
    (slugify : String → String) (now : Nat) :
    ApiResult String × List Brand :=
  let fresh :=
    pl.createBrand npk slugify
      ((store.filter (fun b => b.deleted_at == none)).map (·.slug)) now
  (ApiResult.ok "created", store ++ [fresh])

/-- `update_brand` (brands/api/views.py lines 156-200): fetch through the
active-only manager — a missing pk makes `get_object_or_404` raise
`Http404("No Brand matches the given query.")`, which the view's trailing
`except Exception` catches and returns as a 500 `Unexpected error: ...` —
then reject if `deleted_at` is set (dead code behind that manager),
otherwise apply the payload and save. -/
def update_brand (store : List Brand) (pk : Nat) (pl : BrandPayload)
    (slugify : String → String) (now : Nat) :
    ApiResult String × List Brand :=
  match getBrandOr404 store pk with
  | none =>
      (ApiResult.serverError
        "Unexpected error: No Brand matches the given query.", store)
  | some b =>
      if b.deleted_at.isSome then
        (ApiResult.badRequest "No se puede actualizar una marca eliminada.",
         store)
      else
        let updated :=
          Brand.save (pl.applyTo b) slugify
            (brandActiveSlugsExcluding store pk) now
        (ApiResult.ok "updated", brandStoreWrite store updated)

/-- `delete_brand` (brands/api/views.py lines 203-228): fetch through the
active-only manager — the `Http404` of a missing pk is caught by the view's
`except Exception` and returned as a 500 `Error deleting brand: ...` —
then reject if already deleted (dead code behind that manager), otherwise
soft-delete. -/
def delete_brand (store : List Brand) (pk : Nat)
    (slugify : String → String) (now : Nat) :
    ApiResult String × List Brand :=
  match getBrandOr404 store pk with
  | none =>
      (ApiResult.serverError
        "Error deleting brand: No Brand matches the given query.", store)
  | some b =>
      if b.deleted_at.isSome then
        (ApiResult.badRequest "Esta marca ya está eliminada.", store)
      else
        let deleted :=
          Brand.delete b slugify (brandActiveSlugsExcluding store pk) now
        (ApiResult.ok "Brand deleted successfully (soft delete)",
         brandStoreWrite store deleted)

/-- `restore_brand` (brands/api/views.py lines 231-261): fetch through
`all_objects` — the `Http404` of a missing pk is caught by the view's
`except Exception` and returned as a 500 `Error restoring brand: ...` —
then reject with 400 when the row is not deleted, otherwise restore. -/
def restore_brand (store : List Brand) (pk : Nat)
    (slugify : String → String) (now : Nat) :
    ApiResult String × List Brand :=
  match getBrandAllOr404 store pk with
  | none =>
      (ApiResult.serverError
        "Error restoring brand: No Brand matches the given query.", store)
  | some b =>
      if !b.deleted_at.isSome then
        (ApiResult.badRequest "Esta marca no está eliminada.", store)
      else
        let restored :=
          Brand.restore b slugify (brandActiveSlugsExcluding store pk) now
        (ApiResult.ok "Brand restored successfully",
         brandStoreWrite store restored)

/-- The flag-synchronization invariant of claim C4: a soft-deleted row
always carries a false active flag. -/
def brandFlagInvariant (b : Brand) : Prop :=
  b.deleted_at ≠ none → b.is_active = false

/-- The invariant over a whole table. -/
def brandStoreInvariant (store : List Brand) : Prop :=
  ∀ b ∈ store, brandFlagInvariant b

/-- A concrete brand used by counterexamples and witnesses. -/
def sampleBrand : Brand where
  pk := 1
  name := "Nike"
  slug := "nike"
  description := none
  logo := none
  website := some "https://www.nike.com"
  is_active := true
  is_featured := false
  created_at := 1
  updated_at := 1
  deleted_at := none

/-- An empty update payload (every key absent). -/
def emptyBrandPayload : BrandPayload :=
  ⟨none, none, none, none, none, none, none⟩

/-- A concrete soft-deleted brand (flag already false, in sync). -/
def deletedBrand : Brand :=
  { sampleBrand with
    pk := 2
    name := "Adidas"
    slug := "adidas"
    is_active := false
    deleted_at := some 5 }

/-! ## Boolean query-parameter filters (claim C5) -/

/-- The shared shape of every boolean filter stage in the listing views:

    if param is not None and param != '':
        rows = rows.filter(flag == parse(param))

An absent or empty parameter applies no filter. -/
def applyBoolFilter {α : Type} (parse : String → Bool) (flag : α → Bool)
    (param : Option String) (rows : List α) : List α :=
  match param with
  | none => rows
  | some s =>
      if s = "" then rows else rows.filter (fun r => flag r == parse s)

/-- How `list_brands` (brands/api/views.py line 37), `list_productos`
(productos/api/views.py lines 39-78), `list_attributes` (atributos line 38),
`list_categories` (category line 37) and `list_subcategories`
(subcategories line 38) decode a boolean parameter: `param == '1'`. -/
def parseBoolStd (s : String) : Bool := s == "1"

/-- How `list_attribute_values` decodes `activo`
(atributosvalores/api/views.py line 44):
`activo_filter.lower() == 'true' or activo_filter == '1'`. -/
def parseBoolAV (s : String) : Bool := s.toLower == "true" || s == "1"

/-- How `list_categoria_atributos` decodes `obligatorio`
(categoriaatributos/api/views.py line 50):
`obligatorio_filter == '1' or obligatorio_filter.lower() == 'true'`. -/
def parseBoolCA (s : String) : Bool := s == "1" || s.toLower == "true"

/-- The `status` filter stage of `list_brands` (brands/api/views.py lines
35-38), keyed on `is_active`. -/
def statusFilterBrands (param : Option String) (rows : List Brand) :
    List Brand :=
  applyBoolFilter parseBoolStd (fun b => b.is_active) param rows

/-! ## products_count (claim C8)

`Brand.products_count` (brands/models.py lines 147-152):

    return self.products.filter(is_active=True).count() if hasattr(self, 'products') else 0

and identically `Category.products_count` (category/models.py lines
163-168).  The reverse accessors Django attaches to a Brand or Category
instance are named by the incoming foreign keys' `related_name`:
`Producto.marca` and `Producto.categoria` both declare
`related_name='productos'` (productos/models.py lines 86-104), so the
accessor is `productos`, never `products`. -/

/-- The reverse-relation accessor table of a Brand instance: the single
incoming FK `Producto.marca` contributes the accessor "productos". -/
def brandAccessors (relatedProductos : List Producto) :
    List (String × List Producto) :=
  [("productos", relatedProductos)]

/-- The reverse-relation accessor table of a Category instance: the FK
`Producto.categoria` contributes the accessor "productos".  (Other incoming
FKs — subcategories, category-attribute rows — are not product-valued and
play no part in a products lookup.) -/
def categoryAccessors (relatedProductos : List Producto) :
    List (String × List Producto) :=
  [("productos", relatedProductos)]

/-- `hasattr(self, name)` followed by `getattr`: look the attribute up in
the accessor table. -/
def lookupAccessor (table : List (String × List Producto)) (attr : String) :
    Option (List Producto) :=
  (table.find? (fun e => e.fst == attr)).map (·.snd)

/-- `Brand.products_count`: the `hasattr(self, 'products')` probe and, were
it ever found, the `filter(is_active=True).count()` call.  (`Producto` has
no `is_active` column — its flag is `activo`, which the embedding uses for
the filter — but the branch is unreachable because the accessor is named
"productos".) -/
def Brand.products_count (relatedProductos : List Producto) : Nat :=
  match lookupAccessor (brandAccessors relatedProductos) "products" with
  | some ps => (ps.filter (fun p => p.activo)).length
  | none => 0

/-- `Category.products_count` (category/models.py lines 163-168), same
shape. -/
def Category.products_count (relatedProductos : List Producto) : Nat :=
  match lookupAccessor (categoryAccessors relatedProductos) "products" with
  | some ps => (ps.filter (fun p => p.activo)).length
  | none => 0

/-! ## Dates and the listing date-range filter (claims C3 and C9) -/

structure Date where
  year : Nat
  month : Nat
  day : Nat
deriving DecidableEq

structure DateTime where
  date : Date
  hour : Nat
  minute : Nat
  second : Nat
  microsecond : Nat
deriving DecidableEq

/-- Chronological order on datetimes (lexicographic on the components). -/
def dtLe (a b : DateTime) : Bool :=
  if a.date.year = b.date.year then
    if a.date.month = b.date.month then
      if a.date.day = b.date.day then
        if a.hour = b.hour then
          if a.minute = b.minute then
            if a.second = b.second then
              decide (a.microsecond ≤ b.microsecond)
            else decide (a.second < b.second)
          else decide (a.minute < b.minute)
        else decide (a.hour < b.hour)
      else decide (a.date.day < b.date.day)
    else decide (a.date.month < b.date.month)
  else decide (a.date.year < b.date.year)

/-- `datetime.combine(end_date, datetime.max.time())`: the last microsecond
of the day, 23:59:59.999999 (atributos/api/views.py line 75). -/
def endOfDay (d : Date) : DateTime := ⟨d, 23, 59, 59, 999999⟩

/-- Django promotes a bare date to midnight when comparing it against a
DateTimeField (`created_at__gte=start_date`). -/
def startOfDay (d : Date) : DateTime := ⟨d, 0, 0, 0, 0⟩

def isLeapYear (y : Nat) : Bool :=
  (y % 4 == 0 && y % 100 != 0) || y % 400 == 0

def daysInMonth (y m : Nat) : Nat :=
  if m = 2 then (if isLeapYear y then 29 else 28)
  else if m = 4 ∨ m = 6 ∨ m = 9 ∨ m = 11 then 30
  else 31

/-- Splitting a character sequence on the literal hyphens of the
`'%Y-%m-%d'` format (the semantics of `s.split('-')`). -/
def splitOnDash : List Char → List (List Char)
  | [] => [[]]
  | c :: rest =>
      if c = '-' then [] :: splitOnDash rest
      else
        match splitOnDash rest with
        | [] => [[c]]
        | g :: gs => (c :: g) :: gs

def allDigits (cs : List Char) : Bool :=
  decide (cs.length > 0) && cs.all (·.isDigit)

def digitsToNat (cs : List Char) : Nat :=
  cs.foldl (fun n c => n * 10 + (c.toNat - 48)) 0

/-- Model of `datetime.strptime(s, '%Y-%m-%d').date()` following CPython's
`_strptime`: `%Y` is exactly four digits, `%m` and `%d` one or two digits,
literal hyphens in between and nothing left over; the `datetime` constructor
then requires `1 <= year`, `1 <= month <= 12` and a day the month actually
has (Gregorian leap rule).  A parse failure raises `ValueError`, embedded as
`none`. -/
def parseYMD (s : String) : Option Date :=
  match splitOnDash s.data with
  | [ys, ms, ds] =>
      if allDigits ys && (ys.length == 4) && allDigits ms
          && (ms.length == 1 || ms.length == 2) && allDigits ds
          && (ds.length == 1 || ds.length == 2) then
        let y := digitsToNat ys
        let m := digitsToNat ms
        let d := digitsToNat ds
        if 1 ≤ y ∧ 1 ≤ m ∧ m ≤ 12 ∧ 1 ≤ d ∧ d ≤ daysInMonth y m then
          some ⟨y, m, d⟩
        else none
      else none
  | _ => none

/-! ## Attribute (atributos/models.py lines 30-205) and its API surface -/

structure Attribute where
  pk : Nat
  name : String
  slug : String
  descripcion : Option String
  tipo_input : String
  tipo_dato : String
  es_variable : Bool
  es_filtrable : Bool
  orden : Int
  created_at : DateTime
  updated_at : DateTime
  deleted_at : Option DateTime
deriving DecidableEq

/-- `Attribute.save` (atributos/models.py lines 150-168), same shape as
`Producto.save`. -/
def Attribute.save (a : Attribute) (slugify : String → String)
    (others : List String) (now : DateTime) : Attribute :=
  let a' :=
    if !strTruthy a.slug || strTruthy a.name then
      { a with slug := generateSlug (slugify a.name) others }
    else a
  { a' with updated_at := now }

/-- `Attribute.delete` (atributos/models.py lines 177-183): sets
`deleted_at = timezone.now()` and saves.  Attribute has no active flag. -/
def Attribute.delete (a : Attribute) (slugify : String → String)
    (others : List String) (now : DateTime) : Attribute :=
  Attribute.save { a with deleted_at := some now } slugify others now

/-- `Attribute.restore` (atributos/models.py lines 192-197): clears
`deleted_at` and saves. -/
def Attribute.restore (a : Attribute) (slugify : String → String)
    (others : List String) (now : DateTime) : Attribute :=
  Attribute.save { a with deleted_at := none } slugify others now

/-- Slugs the probe sees when saving an attribute into `store`. -/
def attrActiveSlugsExcluding (store : List Attribute) (pk : Nat) :
    List String :=
  (store.filter (fun r => r.deleted_at == none && r.pk != pk)).map (·.slug)

/-- `get_object_or_404(Attribute, pk=pk)`: the default manager
`objects = AttributeManager()` (atributos/models.py line 130) filters
`deleted_at__isnull=True`, so soft-deleted rows are invisible here. -/
def getAttributeOr404 (store : List Attribute) (pk : Nat) :
    Option Attribute :=
  (store.filter (fun a => a.deleted_at == none)).find? (fun a => a.pk == pk)

/-- `get_object_or_404(Attribute.all_objects, pk=pk)` (restore endpoint). -/
def getAttributeAllOr404 (store : List Attribute) (pk : Nat) :
    Option Attribute :=
  store.find? (fun a => a.pk == pk)

def attrStoreWrite (store : List Attribute) (a : Attribute) :
    List Attribute :=
  store.map (fun r => if r.pk == a.pk then a else r)

/-- `delete_attribute` (atributos/api/views.py lines 232-255): fetch the
record through the active-only default manager — for a missing (including
soft-deleted) pk, `get_object_or_404` raises `Http404("No Attribute
matches the given query.")`, which the view's blanket `except Exception`
(line 251) catches and returns as a 500 `Error deleting attribute: ...` —
then the already-deleted check (dead code behind that manager), then soft
delete. -/
def delete_attribute (store : List Attribute) (pk : Nat)
    (slugify : String → String) (now : DateTime) :
    ApiResult String × List Attribute :=
  match getAttributeOr404 store pk with
  | none =>
      (ApiResult.serverError
        "Error deleting attribute: No Attribute matches the given query.",
       store)
  | some a =>
      if a.deleted_at.isSome then
        (ApiResult.badRequest "Este atributo ya está eliminado.", store)
      else
        let deleted :=
          Attribute.delete a slugify (attrActiveSlugsExcluding store pk) now
        (ApiResult.ok "Attribute deleted successfully (soft delete)",
         attrStoreWrite store deleted)

/-- `restore_attribute` (atributos/api/views.py lines 258-286): fetch
through `all_objects` — the `Http404` of a missing pk is caught by the
view's `except Exception` and returned as a 500
`Error restoring attribute: ...` — then reject with 400 when the row is
not deleted, otherwise restore. -/
def restore_attribute (store : List Attribute) (pk : Nat)
    (slugify : String → String) (now : DateTime) :
    ApiResult String × List Attribute :=
  match getAttributeAllOr404 store pk with
  | none =>
      (ApiResult.serverError
        "Error restoring attribute: No Attribute matches the given query.",
       store)
  | some a =>
      if !a.deleted_at.isSome then
        (ApiResult.badRequest "Este atributo no está eliminado.", store)
      else
        let restored :=
          Attribute.restore a slugify (attrActiveSlugsExcluding store pk) now
        (ApiResult.ok "Attribute restored successfully",
         attrStoreWrite store restored)

/-- The date-range stage of `list_attributes` (atributos/api/views.py lines
57-81); the identical code appears in each of the seven listing views.
Start date first — a malformed start aborts before the end date is looked
at — with `if start_date_str:` truthiness skipping absent or empty
parameters. -/
def applyDateFilters (startParam endParam : Option String)
    (rows : List Attribute) : ApiResult (List Attribute) :=
  let afterStart : ApiResult (List Attribute) :=
    match startParam with
    | none => ApiResult.ok rows
    | some s =>
        if s = "" then ApiResult.ok rows
        else
          match parseYMD s with
          | some d =>
              ApiResult.ok
                (rows.filter (fun r => dtLe (startOfDay d) r.created_at))
          | none =>
              ApiResult.badRequest
                "El formato de la fecha de inicio debe ser YYYY-MM-DD."
  match afterStart with
  | ApiResult.ok rows1 =>
      match endParam with
      | none => ApiResult.ok rows1
      | some s =>
          if s = "" then ApiResult.ok rows1
          else
            match parseYMD s with
            | some d =>
                ApiResult.ok
                  (rows1.filter (fun r => dtLe r.created_at (endOfDay d)))
            | none =>
                ApiResult.badRequest
                  "El formato de la fecha de fin debe ser YYYY-MM-DD."
  | other => other

/-- A concrete active attribute used by counterexamples and witnesses. -/
def sampleAttribute : Attribute where
  pk := 1
  name := "Color"
  slug := "color"
  descripcion := none
  tipo_input := "text"
  tipo_dato := "string"
  es_variable := true
  es_filtrable := true
  orden := 0
  created_at := ⟨⟨2024, 1, 15⟩, 23, 59, 59, 0⟩
  updated_at := ⟨⟨2024, 1, 15⟩, 23, 59, 59, 0⟩
  deleted_at := none

/-- A concrete soft-deleted attribute (same shape, pk 2, deleted). -/
def deletedAttribute : Attribute :=
  { sampleAttribute with
    pk := 2
    slug := "talla"
    name := "Talla"
    deleted_at := some ⟨⟨2024, 2, 1⟩, 0, 0, 0, 0⟩ }

/-! # Theorems -/

/-! Unfolding lemmas for the slug probe. -/

theorem slugProbeAux_succ (base : String) (taken : List String) (fuel : Nat)
    (slug : String) (counter : Nat) :
    slugProbeAux base taken (fuel + 1) slug counter =
      if slug ∈ taken then
        slugProbeAux base taken fuel (slugCandidate base counter) (counter + 1)
      else slug := rfl

theorem generateSlug_def (base : String) (taken : List String) :
    generateSlug base taken =
      slugProbeAux base taken (taken.length + 1) base 1 := rfl

/-! String facts used to tell slug candidates apart. -/

theorem string_append_left_cancel {a b c : String} (h : a ++ b = a ++ c) :
    b = c := by
  have hd := congrArg String.data h
  rw [String.data_append, String.data_append] at hd
  exact String.ext (List.append_cancel_left hd)

theorem slugCandidate_ne_base (base : String) (k : Nat)
    (hk : (toString k).length ≠ 0) : slugCandidate base k ≠ base := by
  intro h
  have hlen := congrArg String.length h
  simp only [slugCandidate, String.length_append] at hlen
  omega

theorem slugCandidate_ne (base : String) {i j : Nat}
    (hij : toString i ≠ toString j) :
    slugCandidate base i ≠ slugCandidate base j := by
  intro h
  simp only [slugCandidate] at h
  exact hij (string_append_left_cancel h)

/-! ## Claim C1: slug probe versus soft-deleted records -/

/-- Claim C1 (code_bug evidence): the uniqueness probe of `Attribute.save`
runs through the soft-delete manager, so it sees NO collision with the
soft-deleted row of `c1Store` and assigns the new record (pk 2, base slug
"color") the deleted record's exact slug "color" — not the suffixed
"color-1" the claim requires.  The second conjunct shows that slug is still
present in the full table, so the assigned value violates the column's
declared `unique=True` constraint (the INSERT would fail with an integrity
error). -/
theorem slug_probe_recycles_deleted_slug :
    generateSlug "color" (activeSlugsExcluding c1Store 2) = "color" ∧
    "color" ∈ allSlugs c1Store := by
  constructor
  · decide
  · decide

/-! ## Claim C7: three same-base creations yield base, base-1, base-2 -/

/-- Claim C7: starting from any store whose active slugs include none of
`base`, `base-1`, `base-2`, three successive saves of records whose names
all normalize to `base` are assigned the slugs `base`, `base-1` and `base-2`
in creation order.  (Which of the three names comes first is irrelevant:
the probe depends only on the shared base slug, so the slug sequence is the
same for every creation order.)  The final two conjuncts spell out the
candidate shape. -/
theorem slug_three_same_base_creations (base : String) (taken : List String)
    (h0 : base ∉ taken)
    (h1 : slugCandidate base 1 ∉ taken)
    (h2 : slugCandidate base 2 ∉ taken) :
    generateSlug base taken = base ∧
    generateSlug base (base :: taken) = slugCandidate base 1 ∧
    generateSlug base (slugCandidate base 1 :: base :: taken) =
      slugCandidate base 2 ∧
    slugCandidate base 1 = base ++ "-1" ∧
    slugCandidate base 2 = base ++ "-2" := by
  have hc1b : slugCandidate base 1 ≠ base :=
    slugCandidate_ne_base base 1 (by decide)
  have hc2b : slugCandidate base 2 ≠ base :=
    slugCandidate_ne_base base 2 (by decide)
  have hc21 : slugCandidate base 2 ≠ slugCandidate base 1 :=
    slugCandidate_ne base (by decide)
  refine ⟨?_, ?_, ?_, ?_, ?_⟩
  · rw [generateSlug_def, slugProbeAux_succ, if_neg h0]
  · have hlen : (base :: taken).length + 1 = taken.length + 1 + 1 := by
      simp
    rw [generateSlug_def, hlen, slugProbeAux_succ,
      if_pos (List.mem_cons_self base taken), slugProbeAux_succ]
    rw [if_neg ?_]
    intro hmem
    rcases List.mem_cons.mp hmem with h | h
    · exact hc1b h
    · exact h1 h
  · have hlen : (slugCandidate base 1 :: base :: taken).length + 1 =
        taken.length + 1 + 1 + 1 := by simp
    rw [generateSlug_def, hlen, slugProbeAux_succ,
      if_pos (List.mem_cons_of_mem _ (List.mem_cons_self base taken)),
      slugProbeAux_succ,
      if_pos (List.mem_cons_self (slugCandidate base 1) (base :: taken)),
      slugProbeAux_succ]
    rw [if_neg ?_]
    intro hmem
    rcases List.mem_cons.mp hmem with h | hmem
    · exact hc21 h
    rcases List.mem_cons.mp hmem with h | h
    · exact hc2b h
    · exact h2 h
  · show base ++ "-" ++ toString 1 = base ++ "-1"
    have hs : ("-" : String) ++ toString 1 = "-1" := by decide
    rw [String.append_assoc, hs]
  · show base ++ "-" ++ toString 2 = base ++ "-2"
    have hs : ("-" : String) ++ toString 2 = "-2" := by decide
    rw [String.append_assoc, hs]

/-- Witness for C7 at a concrete input: base "color" over a store whose
only active foreign slug is "marca": the three probes yield "color",
"color-1", "color-2". -/
theorem slug_three_same_base_creations_witness :
    ("color" ∉ ["marca"]) ∧
    (slugCandidate "color" 1 ∉ ["marca"]) ∧
    (slugCandidate "color" 2 ∉ ["marca"]) ∧
    (generateSlug "color" ["marca"] = "color" ∧
     generateSlug "color" ["color", "marca"] = slugCandidate "color" 1 ∧
     generateSlug "color" [slugCandidate "color" 1, "color", "marca"] =
       slugCandidate "color" 2 ∧
     slugCandidate "color" 1 = "color" ++ "-1" ∧
     slugCandidate "color" 2 = "color" ++ "-2") :=
  ⟨by decide, by decide, by decide,
   slug_three_same_base_creations "color" ["marca"]
     (by decide) (by decide) (by decide)⟩

/-! ## Claim C10: actualizar_stock clamps at zero -/

/-- Claim C10: for every product and every (positive or negative) quantity,
`actualizar_stock` leaves `stock_actual` at the previous value plus the
quantity, clamped below at zero; in particular the result is never
negative. -/
theorem actualizar_stock_clamps_at_zero (p : Producto) (cantidad : Int) :
    (p.actualizar_stock cantidad).stock_actual =
      max 0 (p.stock_actual + cantidad) ∧
    0 ≤ (p.actualizar_stock cantidad).stock_actual := by
  have hmax : max (0 : Int) (p.stock_actual + cantidad) =
      if p.stock_actual + cantidad < 0 then 0
      else p.stock_actual + cantidad := by
    rcases le_or_lt 0 (p.stock_actual + cantidad) with h | h
    · rw [max_eq_right h, if_neg (not_lt.mpr h)]
    · rw [max_eq_left h.le, if_pos h]
  unfold Producto.actualizar_stock
  dsimp only
  rw [hmax]
  refine ⟨rfl, ?_⟩
  split <;> omega

/-! ## Claim C6: precio_final and a zero discount price -/

/-- Counterexample to claim C6 as stated: the claim requires
`precio_final = precio_descuento` whenever `precio_descuento` is non-null,
"including the value 0".  At a product with `precio_descuento = 0` and
`precio_base = 100` the code's truthiness guard (`if self.precio_descuento:`)
treats the zero Decimal as falsy and returns `precio_base = 100`, not 0. -/
theorem precio_final_zero_discount_counterexample :
    ({ sampleProducto with
        precio_base := some 100,
        precio_descuento := some 0 } : Producto).precio_final = some 100 ∧
    ({ sampleProducto with
        precio_base := some 100,
        precio_descuento := some 0 } : Producto).precio_descuento = some 0 ∧
    some (100 : ℚ) ≠ some (0 : ℚ) := by
  refine ⟨by decide, by decide, by decide⟩

/-- Claim C6 amended: `precio_final` equals `precio_descuento` when that
field is set AND non-zero (Python truthiness), and `precio_base`
otherwise — so it falls back to `precio_base` both when the discount price
is null and when it is exactly zero. -/
theorem precio_final_semantics (p : Producto) :
    p.precio_final =
      match p.precio_descuento with
      | some d => if d ≠ 0 then some d else p.precio_base
      | none => p.precio_base := by
  unfold Producto.precio_final decimalTruthy
  cases hd : p.precio_descuento with
  | none => simp
  | some d =>
      by_cases h : d = 0
      · simp [h]
      · simp [h]

/-! ## Claim C2: restore after soft delete -/

/-- Shape of a full delete-then-restore round trip on a product: every
field keeps its pre-delete value except the re-derived `slug`, the
`updated_at` audit stamp, `deleted_at` (cleared), `activo` (forced true)
and `publicado` (cleared by delete and NOT restored). -/
theorem prod_round_trip_shape (p : Producto) (base : String)
    (others : List String) (now1 now2 : Nat) :
    ∃ s, Producto.restore (Producto.delete p base others now1)
        base others now2 =
      { p with
        deleted_at := none, activo := true, publicado := false,
        updated_at := now2, slug := s } := by
  unfold Producto.restore Producto.delete Producto.save
  dsimp only
  split <;>
    first
      | exact ⟨_, rfl⟩
      | (split <;> exact ⟨_, rfl⟩)

/-- Same shape for a brand: every field keeps its pre-delete value except
the re-derived `slug` and `updated_at`; `deleted_at` is cleared and
`is_active` forced true. -/
theorem brand_round_trip_shape (b : Brand) (slugify : String → String)
    (others : List String) (now1 now2 : Nat) :
    ∃ s, Brand.restore (Brand.delete b slugify others now1)
        slugify others now2 =
      { b with
        deleted_at := none, is_active := true,
        updated_at := now2, slug := s } := by
  unfold Brand.restore Brand.delete Brand.save
  dsimp only
  split <;>
    first
      | exact ⟨_, rfl⟩
      | (split <;> exact ⟨_, rfl⟩)

/-- Counterexample to claim C2 as stated: the claim requires every non-audit
business field — "including, for Product, the publicado flag" — to return to
its pre-delete value.  `Producto.delete` clears `publicado` and
`Producto.restore` never sets it back, so a published product comes back
unpublished. -/
theorem restore_loses_publicado_counterexample :
    sampleProducto.publicado = true ∧
    (Producto.restore (Producto.delete sampleProducto "camiseta" [] 10)
        "camiseta" [] 11).publicado = false := by
  refine ⟨rfl, ?_⟩
  obtain ⟨s, hs⟩ := prod_round_trip_shape sampleProducto "camiseta" [] 10 11
  rw [hs]

/-- Claim C2 amended: for an active product, soft delete followed by restore
returns it to the active state (`deleted_at = null`, `activo = true`) with
every non-audit business field equal to its pre-delete value EXCEPT
`publicado`, which delete clears and restore leaves false, and the `slug`,
which the overridden `save` re-derives on every write.  (For Brand, shown in
the trailing conjuncts, all fields besides the re-derived slug and the audit
stamp survive the round trip.) -/
theorem restore_after_soft_delete (p : Producto) (b : Brand)
    (base : String) (slugify : String → String) (others : List String)
    (now1 now2 : Nat)
    (_hp : p.deleted_at = none) (_hb : b.deleted_at = none) :
    let r := Producto.restore (Producto.delete p base others now1)
      base others now2
    let rb := Brand.restore (Brand.delete b slugify others now1)
      slugify others now2
    r.deleted_at = none ∧ r.activo = true ∧ r.publicado = false ∧
    r.pk = p.pk ∧ r.nombre = p.nombre ∧ r.sku_base = p.sku_base ∧
    r.descripcion_corta = p.descripcion_corta ∧
    r.descripcion_larga = p.descripcion_larga ∧
    r.categoria_id = p.categoria_id ∧ r.marca_id = p.marca_id ∧
    r.tiene_variantes = p.tiene_variantes ∧
    r.tipo_producto = p.tipo_producto ∧
    r.precio_base = p.precio_base ∧ r.precio_costo = p.precio_costo ∧
    r.precio_descuento = p.precio_descuento ∧
    r.porcentaje_descuento = p.porcentaje_descuento ∧
    r.moneda = p.moneda ∧ r.stock_actual = p.stock_actual ∧
    r.stock_minimo = p.stock_minimo ∧ r.unidad_medida = p.unidad_medida ∧
    r.peso = p.peso ∧ r.largo = p.largo ∧ r.ancho = p.ancho ∧
    r.alto = p.alto ∧ r.meta_title = p.meta_title ∧
    r.meta_description = p.meta_description ∧ r.keywords = p.keywords ∧
    r.destacado = p.destacado ∧ r.es_nuevo = p.es_nuevo ∧
    r.fecha_publicacion = p.fecha_publicacion ∧
    r.fecha_nuevo_hasta = p.fecha_nuevo_hasta ∧ r.vistas = p.vistas ∧
    r.ventas_totales = p.ventas_totales ∧
    r.rating_promedio = p.rating_promedio ∧
    r.total_reviews = p.total_reviews ∧ r.created_at = p.created_at ∧
    r.created_by = p.created_by ∧ r.updated_by = p.updated_by ∧
    rb.deleted_at = none ∧ rb.is_active = true ∧ rb.pk = b.pk ∧
    rb.name = b.name ∧ rb.description = b.description ∧
    rb.logo = b.logo ∧ rb.website = b.website ∧
    rb.is_featured = b.is_featured ∧ rb.created_at = b.created_at := by
  obtain ⟨s, hs⟩ := prod_round_trip_shape p base others now1 now2
  obtain ⟨t, ht⟩ := brand_round_trip_shape b slugify others now1 now2
  rw [hs, ht]
  repeat' constructor

/-- Witness for the amended C2 at a concrete input: the sample product and
sample brand are active, and the round trip at those inputs satisfies every
conjunct. -/
theorem restore_after_soft_delete_witness :
    sampleProducto.deleted_at = none ∧ sampleBrand.deleted_at = none ∧
    (let r := Producto.restore
        (Producto.delete sampleProducto "camiseta" [] 10) "camiseta" [] 11
     let rb := Brand.restore
        (Brand.delete sampleBrand (fun _ => "nike") [] 10)
        (fun _ => "nike") [] 11
     r.deleted_at = none ∧ r.activo = true ∧ r.publicado = false ∧
     r.pk = sampleProducto.pk ∧ r.nombre = sampleProducto.nombre ∧
     r.sku_base = sampleProducto.sku_base ∧
     r.descripcion_corta = sampleProducto.descripcion_corta ∧
     r.descripcion_larga = sampleProducto.descripcion_larga ∧
     r.categoria_id = sampleProducto.categoria_id ∧
     r.marca_id = sampleProducto.marca_id ∧
     r.tiene_variantes = sampleProducto.tiene_variantes ∧
     r.tipo_producto = sampleProducto.tipo_producto ∧
     r.precio_base = sampleProducto.precio_base ∧
     r.precio_costo = sampleProducto.precio_costo ∧
     r.precio_descuento = sampleProducto.precio_descuento ∧
     r.porcentaje_descuento = sampleProducto.porcentaje_descuento ∧
     r.moneda = sampleProducto.moneda ∧
     r.stock_actual = sampleProducto.stock_actual ∧
     r.stock_minimo = sampleProducto.stock_minimo ∧
     r.unidad_medida = sampleProducto.unidad_medida ∧
     r.peso = sampleProducto.peso ∧ r.largo = sampleProducto.largo ∧
     r.ancho = sampleProducto.ancho ∧ r.alto = sampleProducto.alto ∧
     r.meta_title = sampleProducto.meta_title ∧
     r.meta_description = sampleProducto.meta_description ∧
     r.keywords = sampleProducto.keywords ∧
     r.destacado = sampleProducto.destacado ∧
     r.es_nuevo = sampleProducto.es_nuevo ∧
     r.fecha_publicacion = sampleProducto.fecha_publicacion ∧
     r.fecha_nuevo_hasta = sampleProducto.fecha_nuevo_hasta ∧
     r.vistas = sampleProducto.vistas ∧
     r.ventas_totales = sampleProducto.ventas_totales ∧
     r.rating_promedio = sampleProducto.rating_promedio ∧
     r.total_reviews = sampleProducto.total_reviews ∧
     r.created_at = sampleProducto.created_at ∧
     r.created_by = sampleProducto.created_by ∧
     r.updated_by = sampleProducto.updated_by ∧
     rb.deleted_at = none ∧ rb.is_active = true ∧
     rb.pk = sampleBrand.pk ∧ rb.name = sampleBrand.name ∧
     rb.description = sampleBrand.description ∧
     rb.logo = sampleBrand.logo ∧ rb.website = sampleBrand.website ∧
     rb.is_featured = sampleBrand.is_featured ∧
     rb.created_at = sampleBrand.created_at) :=
  ⟨rfl, rfl,
   restore_after_soft_delete sampleProducto sampleBrand "camiseta"
     (fun _ => "nike") [] 10 11 rfl rfl⟩

/-! ## Claim C8: products_count -/

/-- Claim C8 (code_bug evidence): `products_count` probes for an attribute
named "products", but the reverse accessor Django creates from
`Producto.marca` and `Producto.categoria` is named "productos" (their
`related_name`), so the `hasattr` probe never succeeds and the property
returns 0 for every brand and every category, however many related products
exist — contradicting its own docstring ("Retorna el número de productos
asociados"). -/
theorem products_count_always_zero (relatedProductos : List Producto) :
    Brand.products_count relatedProductos = 0 ∧
    Category.products_count relatedProductos = 0 :=
  ⟨rfl, rfl⟩

/-! ## Claim C5: boolean listing filters -/

/-- Counterexample to claim C5 as stated: the claim requires the parameter
value "true" to encode true on every listing endpoint, so filtering brands
by `status=true` should keep the active sample brand.  `list_brands`
decodes the parameter as `status_filter == '1'`, so "true" encodes FALSE
and the active brand is filtered out. -/
theorem bool_filter_true_literal_counterexample :
    statusFilterBrands (some "true") [sampleBrand] = [] ∧
    sampleBrand.is_active = true := by
  constructor
  · decide
  · rfl

/-- Claim C5 amended: with a present, non-empty parameter the filter keeps
exactly the rows whose flag equals the encoded boolean, but the encoding is
endpoint-specific: the brand, product, attribute, category and subcategory
listings treat exactly the string "1" as true and every other non-empty
value — including "true" — as false, while the attribute-values and
category-attribute listings also accept case-insensitive "true" as true.
An absent or empty parameter applies no filter. -/
theorem bool_filter_semantics {α : Type} (flag : α → Bool) (rows : List α)
    (s : String) (r : α) (hs : s ≠ "") :
    (r ∈ applyBoolFilter parseBoolStd flag (some s) rows ↔
      r ∈ rows ∧ flag r = (s == "1")) ∧
    (r ∈ applyBoolFilter parseBoolAV flag (some s) rows ↔
      r ∈ rows ∧ flag r = (s.toLower == "true" || s == "1")) ∧
    (r ∈ applyBoolFilter parseBoolCA flag (some s) rows ↔
      r ∈ rows ∧ flag r = (s == "1" || s.toLower == "true")) ∧
    applyBoolFilter parseBoolStd flag none rows = rows ∧
    applyBoolFilter parseBoolStd flag (some "") rows = rows ∧
    applyBoolFilter parseBoolAV flag none rows = rows ∧
    applyBoolFilter parseBoolAV flag (some "") rows = rows ∧
    applyBoolFilter parseBoolCA flag none rows = rows ∧
    applyBoolFilter parseBoolCA flag (some "") rows = rows := by
  refine ⟨?_, ?_, ?_, rfl, by simp [applyBoolFilter], rfl,
    by simp [applyBoolFilter], rfl, by simp [applyBoolFilter]⟩
  · unfold applyBoolFilter parseBoolStd
    dsimp only
    rw [if_neg hs]
    simp [List.mem_filter]
  · unfold applyBoolFilter parseBoolAV
    dsimp only
    rw [if_neg hs]
    simp [List.mem_filter]
  · unfold applyBoolFilter parseBoolCA
    dsimp only
    rw [if_neg hs]
    simp [List.mem_filter]

/-- Witness for the amended C5 at a concrete input: parameter "1" on the
brand status filter keeps exactly the active rows. -/
theorem bool_filter_semantics_witness :
    ("1" ≠ "") ∧
    ((sampleBrand ∈ applyBoolFilter parseBoolStd (fun b => b.is_active)
        (some "1") [sampleBrand] ↔
      sampleBrand ∈ [sampleBrand] ∧
        sampleBrand.is_active = ("1" == "1")) ∧
     (sampleBrand ∈ applyBoolFilter parseBoolAV (fun b => b.is_active)
        (some "1") [sampleBrand] ↔
      sampleBrand ∈ [sampleBrand] ∧
        sampleBrand.is_active = ("1".toLower == "true" || "1" == "1")) ∧
     (sampleBrand ∈ applyBoolFilter parseBoolCA (fun b => b.is_active)
        (some "1") [sampleBrand] ↔
      sampleBrand ∈ [sampleBrand] ∧
        sampleBrand.is_active = ("1" == "1" || "1".toLower == "true")) ∧
     applyBoolFilter parseBoolStd (fun b => b.is_active) none
        [sampleBrand] = [sampleBrand] ∧
     applyBoolFilter parseBoolStd (fun b => b.is_active) (some "")
        [sampleBrand] = [sampleBrand] ∧
     applyBoolFilter parseBoolAV (fun b => b.is_active) none
        [sampleBrand] = [sampleBrand] ∧
     applyBoolFilter parseBoolAV (fun b => b.is_active) (some "")
        [sampleBrand] = [sampleBrand] ∧
     applyBoolFilter parseBoolCA (fun b => b.is_active) none
        [sampleBrand] = [sampleBrand] ∧
     applyBoolFilter parseBoolCA (fun b => b.is_active) (some "")
        [sampleBrand] = [sampleBrand]) :=
  ⟨by decide,
   bool_filter_semantics (fun b => b.is_active) [sampleBrand] "1"
     sampleBrand (by decide)⟩

/-! ## Claim C3: deleting twice and restoring the not-deleted -/

/-- Counterexample to claim C3 as stated: for an already-soft-deleted
attribute the delete endpoint's `get_object_or_404` — resolving through
the active-only default manager — raises `Http404`, which the view's
blanket `except Exception` catches and turns into a 500-class response.
So the answer is a server error, not the 400-class "already deleted" the
claim requires (that check is dead code). -/
theorem delete_already_deleted_gives_500 :
    (delete_attribute ([deletedAttribute]) 2 (fun _ => "talla")
        ⟨⟨2024, 3, 1⟩, 0, 0, 0, 0⟩).fst =
      ApiResult.serverError
        "Error deleting attribute: No Attribute matches the given query." ∧
    (delete_attribute ([deletedAttribute]) 2 (fun _ => "talla")
        ⟨⟨2024, 3, 1⟩, 0, 0, 0, 0⟩).fst ≠
      ApiResult.badRequest "Este atributo ya está eliminado." := by
  constructor
  · rfl
  · decide

/-- Claim C3 corrected: (i) when every row carrying the requested pk is
soft-deleted, the delete endpoint answers a 500-class error — not a
400-class "already deleted" — because the active-only default manager
cannot find the row, and the `Http404` that `get_object_or_404` raises is
caught by the view's blanket `except Exception` and surfaced as a 500;
(ii) the restore endpoint on a record that is not deleted does answer a
400-class "not deleted". -/
theorem delete_restore_status_codes (store : List Attribute) (pk pk2 : Nat)
    (a2 : Attribute) (slugify : String → String) (now : DateTime)
    (hdel : store.all (fun a => a.pk != pk || a.deleted_at != none) = true)
    (hfind : getAttributeAllOr404 store pk2 = some a2)
    (hactive : a2.deleted_at = none) :
    (delete_attribute store pk slugify now).fst =
      ApiResult.serverError
        "Error deleting attribute: No Attribute matches the given query." ∧
    (restore_attribute store pk2 slugify now).fst =
      ApiResult.badRequest "Este atributo no está eliminado." := by
  constructor
  · have hnone : getAttributeOr404 store pk = none := by
      unfold getAttributeOr404
      rw [List.find?_eq_none]
      intro a ha
      rw [List.mem_filter] at ha
      have hp := List.all_eq_true.mp hdel a ha.1
      intro hbeq
      simp [bne, hbeq, ha.2] at hp
    unfold delete_attribute
    rw [hnone]
  · unfold restore_attribute
    rw [hfind]
    dsimp only
    rw [hactive]
    rfl

/-- Witness for the corrected C3 at a concrete input: a store holding one
active attribute (pk 1) and one soft-deleted attribute (pk 2): deleting
pk 2 gives the 500-class error, restoring pk 1 gives the 400
"not deleted". -/
theorem delete_restore_status_codes_witness :
    ([sampleAttribute, deletedAttribute].all
        (fun a => a.pk != 2 || a.deleted_at != none) = true) ∧
    getAttributeAllOr404 [sampleAttribute, deletedAttribute] 1 =
      some sampleAttribute ∧
    sampleAttribute.deleted_at = none ∧
    ((delete_attribute ([sampleAttribute, deletedAttribute]) 2
        (fun _ => "talla") ⟨⟨2024, 3, 1⟩, 0, 0, 0, 0⟩).fst =
      ApiResult.serverError
        "Error deleting attribute: No Attribute matches the given query." ∧
     (restore_attribute ([sampleAttribute, deletedAttribute]) 1
        (fun _ => "color") ⟨⟨2024, 3, 1⟩, 0, 0, 0, 0⟩).fst =
      ApiResult.badRequest "Este atributo no está eliminado.") :=
  ⟨by decide, by decide, rfl,
   delete_restore_status_codes [sampleAttribute, deletedAttribute] 2 1
     sampleAttribute (fun _ => "talla") ⟨⟨2024, 3, 1⟩, 0, 0, 0, 0⟩
     (by decide) (by decide) rfl⟩

/-! ## Claim C9: date-range filtering -/

/-- Claim C9: the end-date filter keeps exactly the rows whose `created_at`
is at or before 23:59:59.999999 of that day; a string `strptime` rejects
makes the request fail with the 400-class message naming the end date (or,
for the start parameter, the start date).  The last two conjuncts check the
claim's concrete boundary: end date 2024-01-15 admits a record created at
2024-01-15T23:59:59 and rejects one created at 2024-01-16T00:00:01. -/
theorem end_date_filter_semantics (rows : List Attribute) (s t : String)
    (d : Date) (hok : parseYMD s = some d) (hbad : parseYMD t = none)
    (ht : t ≠ "") :
    applyDateFilters none (some s) rows =
      ApiResult.ok (rows.filter (fun r => dtLe r.created_at (endOfDay d))) ∧
    applyDateFilters none (some t) rows =
      ApiResult.badRequest
        "El formato de la fecha de fin debe ser YYYY-MM-DD." ∧
    applyDateFilters (some t) none rows =
      ApiResult.badRequest
        "El formato de la fecha de inicio debe ser YYYY-MM-DD." ∧
    dtLe ⟨⟨2024, 1, 15⟩, 23, 59, 59, 0⟩ (endOfDay ⟨2024, 1, 15⟩) = true ∧
    dtLe ⟨⟨2024, 1, 16⟩, 0, 0, 1, 0⟩ (endOfDay ⟨2024, 1, 15⟩) = false := by
  have hs : s ≠ "" := by
    intro he
    rw [he] at hok
    have h0 : parseYMD "" = none := by decide
    rw [h0] at hok
    exact Option.noConfusion hok
  refine ⟨?_, ?_, ?_, by decide, by decide⟩
  · unfold applyDateFilters
    dsimp only
    rw [if_neg hs, hok]
  · unfold applyDateFilters
    dsimp only
    rw [if_neg ht, hbad]
  · unfold applyDateFilters
    dsimp only
    rw [if_neg ht, hbad]

/-- Witness for C9 at concrete inputs: "2024-01-15" parses to that date and
filters the sample attribute store; "2024-13-01" (month 13) is rejected and
yields the field-specific 400 messages. -/
theorem end_date_filter_semantics_witness :
    parseYMD "2024-01-15" = some ⟨2024, 1, 15⟩ ∧
    parseYMD "2024-13-01" = none ∧
    ("2024-13-01" ≠ "") ∧
    (applyDateFilters none (some "2024-01-15") [sampleAttribute] =
      ApiResult.ok ([sampleAttribute].filter
        (fun r => dtLe r.created_at (endOfDay ⟨2024, 1, 15⟩))) ∧
     applyDateFilters none (some "2024-13-01") [sampleAttribute] =
      ApiResult.badRequest
        "El formato de la fecha de fin debe ser YYYY-MM-DD." ∧
     applyDateFilters (some "2024-13-01") none [sampleAttribute] =
      ApiResult.badRequest
        "El formato de la fecha de inicio debe ser YYYY-MM-DD." ∧
     dtLe ⟨⟨2024, 1, 15⟩, 23, 59, 59, 0⟩ (endOfDay ⟨2024, 1, 15⟩) = true ∧
     dtLe ⟨⟨2024, 1, 16⟩, 0, 0, 1, 0⟩ (endOfDay ⟨2024, 1, 15⟩) = false) :=
  ⟨by decide, by decide, by decide,
   end_date_filter_semantics [sampleAttribute] "2024-01-15" "2024-13-01"
     ⟨2024, 1, 15⟩ (by decide) (by decide) (by decide)⟩

/-! ## Claim C4: the deleted-implies-inactive invariant -/

/-- `Brand.save` never touches `deleted_at` (it only re-derives the slug
and stamps `updated_at`). -/
theorem brand_save_deleted_at (b : Brand) (slugify : String → String)
    (others : List String) (now : Nat) :
    (Brand.save b slugify others now).deleted_at = b.deleted_at := by
  unfold Brand.save
  dsimp only
  split <;> rfl

/-- `Brand.save` never touches `is_active`. -/
theorem brand_save_is_active (b : Brand) (slugify : String → String)
    (others : List String) (now : Nat) :
    (Brand.save b slugify others now).is_active = b.is_active := by
  unfold Brand.save
  dsimp only
  split <;> rfl

/-- Persisting one row rewrites that row and keeps the others. -/
theorem mem_brandStoreWrite {store : List Brand} {x b' : Brand}
    (h : b' ∈ brandStoreWrite store x) : b' = x ∨ b' ∈ store := by
  unfold brandStoreWrite at h
  rw [List.mem_map] at h
  obtain ⟨r, hr, heq⟩ := h
  split at heq
  · exact Or.inl heq.symm
  · exact Or.inr (heq ▸ hr)

/-- Claim C4: the invariant "`deleted_at` set implies the active flag is
false" holds after each of the four public operations on brands — create,
update, soft delete, restore — whenever it held before.  The trailing
conjuncts pin down the mechanism: creation and update leave `deleted_at`
untouched (`Brand.save` never writes it), soft delete sets `deleted_at` and
forces `is_active := false` in the same step, and restore clears
`deleted_at` and forces `is_active := true` in the same step.  The same
delete/restore pairing was proved for `Producto` (with `activo`/`publicado`)
in the round-trip theorem for claim C2. -/
theorem soft_delete_flag_invariant (store : List Brand) (pk npk : Nat)
    (pl : BrandPayload) (slugify : String → String) (now : Nat)
    (b : Brand) (others : List String)
    (hinv : brandStoreInvariant store) :
    brandStoreInvariant (create_brand store pl npk slugify now).snd ∧
    brandStoreInvariant (update_brand store pk pl slugify now).snd ∧
    brandStoreInvariant (delete_brand store pk slugify now).snd ∧
    brandStoreInvariant (restore_brand store pk slugify now).snd ∧
    (pl.createBrand npk slugify others now).deleted_at = none ∧
    (Brand.save (pl.applyTo b) slugify others now).deleted_at =
      b.deleted_at ∧
    (Brand.delete b slugify others now).deleted_at = some now ∧
    (Brand.delete b slugify others now).is_active = false ∧
    (Brand.restore b slugify others now).deleted_at = none ∧
    (Brand.restore b slugify others now).is_active = true := by
  refine ⟨?_, ?_, ?_, ?_, ?_, ?_, ?_, ?_, ?_, ?_⟩
  · -- create appends a fresh row with deleted_at = none
    intro b' hb'
    unfold create_brand at hb'
    dsimp only at hb'
    rcases List.mem_append.mp hb' with h | h
    · exact hinv b' h
    · rcases List.mem_singleton.mp h with rfl
      intro hdel
      exfalso
      apply hdel
      unfold BrandPayload.createBrand
      rw [brand_save_deleted_at]
      rfl
  · -- update acts only on rows the active-only manager can see
    cases hfind : getBrandOr404 store pk with
    | none =>
        unfold update_brand
        rw [hfind]
        exact hinv
    | some b0 =>
        unfold update_brand
        rw [hfind]
        dsimp only
        split
        · exact hinv
        · rename_i hns
          intro b' hb'
          dsimp only at hb'
          rcases mem_brandStoreWrite hb' with rfl | h
          · intro hdel
            exfalso
            apply hdel
            rw [brand_save_deleted_at]
            show b0.deleted_at = none
            cases hcase : b0.deleted_at with
            | none => rfl
            | some ts => rw [hcase] at hns; exact absurd rfl hns
          · exact hinv b' h
  · -- soft delete forces is_active = false on the row it writes
    cases hfind : getBrandOr404 store pk with
    | none =>
        unfold delete_brand
        rw [hfind]
        exact hinv
    | some b0 =>
        unfold delete_brand
        rw [hfind]
        dsimp only
        split
        · exact hinv
        · intro b' hb'
          dsimp only at hb'
          rcases mem_brandStoreWrite hb' with rfl | h
          · intro _
            unfold Brand.delete
            rw [brand_save_is_active]
          · exact hinv b' h
  · -- restore clears deleted_at on the row it writes
    cases hfind : getBrandAllOr404 store pk with
    | none =>
        unfold restore_brand
        rw [hfind]
        exact hinv
    | some b0 =>
        unfold restore_brand
        rw [hfind]
        dsimp only
        split
        · exact hinv
        · intro b' hb'
          dsimp only at hb'
          rcases mem_brandStoreWrite hb' with rfl | h
          · intro hdel
            exfalso
            apply hdel
            unfold Brand.restore
            rw [brand_save_deleted_at]
            try rfl
          · exact hinv b' h
  · unfold BrandPayload.createBrand
    rw [brand_save_deleted_at]
    try rfl
  · rw [brand_save_deleted_at]
    try rfl
  · unfold Brand.delete
    rw [brand_save_deleted_at]
    try rfl
  · unfold Brand.delete
    rw [brand_save_is_active]
    try rfl
  · unfold Brand.restore
    rw [brand_save_deleted_at]
    try rfl
  · unfold Brand.restore
    rw [brand_save_is_active]
    try rfl

/-- Witness for C4 at a concrete input: the two-row store (one active brand,
one soft-deleted brand with its flag already false) satisfies the invariant,
and so do the results of all four operations on it. -/
theorem soft_delete_flag_invariant_witness :
    brandStoreInvariant [sampleBrand, deletedBrand] ∧
    (brandStoreInvariant
        (create_brand [sampleBrand, deletedBrand] emptyBrandPayload 3
          (fun _ => "nike") 20).snd ∧
     brandStoreInvariant
        (update_brand [sampleBrand, deletedBrand] 2 emptyBrandPayload
          (fun _ => "nike") 20).snd ∧
     brandStoreInvariant
        (delete_brand [sampleBrand, deletedBrand] 2
          (fun _ => "nike") 20).snd ∧
     brandStoreInvariant
        (restore_brand [sampleBrand, deletedBrand] 2
          (fun _ => "nike") 20).snd ∧
     (emptyBrandPayload.createBrand 3 (fun _ => "nike") [] 20).deleted_at =
       none ∧
     (Brand.save (emptyBrandPayload.applyTo sampleBrand) (fun _ => "nike")
        [] 20).deleted_at = sampleBrand.deleted_at ∧
     (Brand.delete sampleBrand (fun _ => "nike") [] 20).deleted_at =
       some 20 ∧
     (Brand.delete sampleBrand (fun _ => "nike") [] 20).is_active =
       false ∧
     (Brand.restore sampleBrand (fun _ => "nike") [] 20).deleted_at =
       none ∧
     (Brand.restore sampleBrand (fun _ => "nike") [] 20).is_active =
       true) :=
  ⟨by unfold brandStoreInvariant brandFlagInvariant; decide,
   soft_delete_flag_invariant [sampleBrand, deletedBrand] 2 3
     emptyBrandPayload (fun _ => "nike") 20 sampleBrand []
     (by unfold brandStoreInvariant brandFlagInvariant; decide)⟩

end PideBackend
